import Mathlib

/-!
Shallow embedding of the resilient request pipeline of the kra-connect-go-sdk
repository: configuration validation (config.go / validation.go), the typed
error taxonomy (errors.go), the token-bucket rate limiter (ratelimit.go), the
retry executor (http.go) and the cache manager.

Conventions used throughout:
* Go `time.Duration` values are `Int` nanosecond counts.
* Go `float64` arithmetic is modelled exactly over `ℚ`; the conversions
  `int(x)` and `time.Duration(x)` on a `float64` are truncation toward zero.
* A Go function that can panic is modelled with an `Option` result where
  `none` stands for the panic.
-/

namespace KraSdk

/-- One millisecond in nanoseconds (Go `time.Millisecond`). -/
def millisecond : Int := 1000000

/-- One second in nanoseconds (Go `time.Second`). -/
def second : Int := 1000000000

/-- One minute in nanoseconds (Go `time.Minute`). -/
def minute : Int := 60000000000

/-- One hour in nanoseconds (Go `time.Hour`). -/
def hour : Int := 3600000000000

/-- Truncation of a rational toward zero: Go's `int(x)` and `time.Duration(x)`
conversions on a `float64` value. -/
def ratTrunc (q : ℚ) : Int := q.num.tdiv q.den

/-- Truncation is the identity on integers. -/
theorem ratTrunc_intCast (m : ℤ) : ratTrunc (m : ℚ) = m := by
  simp [ratTrunc, Rat.num_intCast, Rat.den_intCast, Int.tdiv_one]

/-- Truncation of a rational in the interval from 0 up to but excluding 1 is 0. -/
theorem ratTrunc_eq_zero (q : ℚ) (h0 : 0 ≤ q) (h1 : q < 1) : ratTrunc q = 0 := by
  have hn : 0 ≤ q.num := Rat.num_nonneg.mpr h0
  have hd0 : (0 : ℚ) < (q.den : ℚ) := by exact_mod_cast q.den_pos
  have hlt : (q.num : ℚ) < (q.den : ℚ) := by
    rw [← Rat.num_div_den q] at h1
    exact (div_lt_one hd0).mp h1
  exact Int.tdiv_eq_zero_of_lt hn (by exact_mod_cast hlt)

/-- The error taxonomy of errors.go.  Each Go error type is one constructor;
`rawError` stands for any Go `error` value that is not one of the SDK's typed
errors (those produced by `fmt.Errorf` and by `ctx.Err()`). -/
inductive SdkError where
  | validationError (field message : String)
  | authenticationError (message : String)
  | rateLimitError (retryAfter : Int) (limit : Int) (window : Int)
  | timeoutError (endpoint : String) (timeout : Int) (attemptNumber : Int)
  | apiError (statusCode : Int) (message : String) (endpoint : String) (responseBody : String)
  | networkError (endpoint : String) (cause : String)
  | cacheError (operation key reason : String)
  | rawError (message : String)
deriving Repr, DecidableEq

/-- True on the seven typed kinds of errors.go, false on raw untyped errors. -/
def SdkError.isTaxonomy : SdkError → Bool
  | .rawError _ => false
  | _ => true

/-- APIError.IsClientError (errors.go): status code in 400..499. -/
def SdkError.isClientErrorCode (statusCode : Int) : Bool :=
  decide (400 ≤ statusCode) && decide (statusCode < 500)

/-- trims leading and trailing whitespace, as Go `strings.TrimSpace`. -/
def trimSpace (s : String) : String :=
  String.mk (((s.toList.dropWhile Char.isWhitespace).reverse.dropWhile Char.isWhitespace).reverse)

/-- ValidateAPIKey (validation.go): non-empty, at least 16 characters after
trimming whitespace. -/
def ValidateAPIKey (apiKey : String) : Option SdkError :=
  if apiKey = "" then some (.validationError "api_key" "API key is required")
  else if (trimSpace apiKey).length < 16 then
    some (.validationError "api_key" "API key must be at least 16 characters long")
  else none

/-- ValidateTimeout (validation.go): positive, at most 10 minutes. -/
def ValidateTimeout (timeout : Int) : Option SdkError :=
  if timeout ≤ 0 then some (.validationError "timeout" "Timeout must be positive")
  else if 10 * minute < timeout then
    some (.validationError "timeout" "Timeout cannot exceed 10 minutes")
  else none

/-- ValidateRetryConfig (validation.go). -/
def ValidateRetryConfig (maxRetries : Int) (initialDelay maxDelay : Int) : Option SdkError :=
  if maxRetries < 0 then some (.validationError "max_retries" "Max retries cannot be negative")
  else if 10 < maxRetries then some (.validationError "max_retries" "Max retries cannot exceed 10")
  else if initialDelay ≤ 0 then
    some (.validationError "initial_delay" "Initial delay must be positive")
  else if maxDelay ≤ 0 then some (.validationError "max_delay" "Max delay must be positive")
  else if maxDelay < initialDelay then
    some (.validationError "max_delay" "Max delay cannot be less than initial delay")
  else none

/-- ValidateRateLimitConfig (validation.go). -/
def ValidateRateLimitConfig (maxRequests : Int) (window : Int) : Option SdkError :=
  if maxRequests ≤ 0 then some (.validationError "max_requests" "Max requests must be positive")
  else if window ≤ 0 then some (.validationError "window" "Window duration must be positive")
  else none

/-- ValidateCacheTTL (validation.go): non-negative, at most 24 hours. -/
def ValidateCacheTTL (ttl : Int) : Option SdkError :=
  if ttl < 0 then some (.validationError "cache_ttl" "Cache TTL cannot be negative")
  else if 24 * hour < ttl then
    some (.validationError "cache_ttl" "Cache TTL cannot exceed 24 hours")
  else none

/-- The Config structure of config.go. -/
structure Config where
  APIKey : String
  BaseURL : String
  Timeout : Int
  MaxRetries : Int
  InitialDelay : Int
  MaxDelay : Int
  RateLimitEnabled : Bool
  MaxRequests : Int
  RateLimitWindow : Int
  CacheEnabled : Bool
  PINVerificationTTL : Int
  TCCVerificationTTL : Int
  EslipValidationTTL : Int
  TaxpayerDetailsTTL : Int
  NILReturnTTL : Int
  CacheMaxEntries : Int
  DebugMode : Bool
deriving Repr, DecidableEq

/-- The cache block of Config.Validate (config.go): when the cache is enabled,
the capacity must be positive and each per-operation TTL must pass
ValidateCacheTTL. -/
def Config.validateCacheSection (c : Config) : Option SdkError :=
  if c.CacheEnabled then
    if c.CacheMaxEntries ≤ 0 then
      some (.validationError "cache_max_entries" "Cache max entries must be positive")
    else
      match ValidateCacheTTL c.PINVerificationTTL with
      | some e => some e
      | none =>
        match ValidateCacheTTL c.TCCVerificationTTL with
        | some e => some e
        | none =>
          match ValidateCacheTTL c.EslipValidationTTL with
          | some e => some e
          | none =>
            match ValidateCacheTTL c.TaxpayerDetailsTTL with
            | some e => some e
            | none =>
              match ValidateCacheTTL c.NILReturnTTL with
              | some e => some e
              | none => none
  else none

/-- Config.Validate (config.go), called by NewClient before any component is
built: the first failing check aborts construction with its error. -/
def Config.Validate (c : Config) : Option SdkError :=
  match ValidateAPIKey c.APIKey with
  | some e => some e
  | none =>
    if c.BaseURL = "" then some (.validationError "base_url" "Base URL is required")
    else
      match ValidateTimeout c.Timeout with
      | some e => some e
      | none =>
        match ValidateRetryConfig c.MaxRetries c.InitialDelay c.MaxDelay with
        | some e => some e
        | none =>
          if c.RateLimitEnabled then
            match ValidateRateLimitConfig c.MaxRequests c.RateLimitWindow with
            | some e => some e
            | none => c.validateCacheSection
          else c.validateCacheSection

/-- Every error ValidateAPIKey can produce is a validationError. -/
theorem ValidateAPIKey_only_validation (x : String) (e : SdkError)
    (h : ValidateAPIKey x = some e) : ∃ f m, e = .validationError f m := by
  unfold ValidateAPIKey at h
  repeat' split at h
  all_goals first
    | exact Option.noConfusion h
    | (injection h with h; exact ⟨_, _, h.symm⟩)

/-- Every error ValidateTimeout can produce is a validationError. -/
theorem ValidateTimeout_only_validation (t : Int) (e : SdkError)
    (h : ValidateTimeout t = some e) : ∃ f m, e = .validationError f m := by
  unfold ValidateTimeout at h
  repeat' split at h
  all_goals first
    | exact Option.noConfusion h
    | (injection h with h; exact ⟨_, _, h.symm⟩)

/-- Every error ValidateRetryConfig can produce is a validationError. -/
theorem ValidateRetryConfig_only_validation (r i m : Int) (e : SdkError)
    (h : ValidateRetryConfig r i m = some e) : ∃ f m, e = .validationError f m := by
  unfold ValidateRetryConfig at h
  repeat' split at h
  all_goals first
    | exact Option.noConfusion h
    | (injection h with h; exact ⟨_, _, h.symm⟩)

/-- Every error ValidateRateLimitConfig can produce is a validationError. -/
theorem ValidateRateLimitConfig_only_validation (q w : Int) (e : SdkError)
    (h : ValidateRateLimitConfig q w = some e) : ∃ f m, e = .validationError f m := by
  unfold ValidateRateLimitConfig at h
  repeat' split at h
  all_goals first
    | exact Option.noConfusion h
    | (injection h with h; exact ⟨_, _, h.symm⟩)

/-- Every error ValidateCacheTTL can produce is a validationError. -/
theorem ValidateCacheTTL_only_validation (t : Int) (e : SdkError)
    (h : ValidateCacheTTL t = some e) : ∃ f m, e = .validationError f m := by
  unfold ValidateCacheTTL at h
  repeat' split at h
  all_goals first
    | exact Option.noConfusion h
    | (injection h with h; exact ⟨_, _, h.symm⟩)

/-- Every error the cache block of Config.Validate can produce is a
validationError. -/
theorem Config.validateCacheSection_only_validation (c : Config) (e : SdkError)
    (h : c.validateCacheSection = some e) : ∃ f m, e = .validationError f m := by
  unfold Config.validateCacheSection at h
  repeat' split at h
  all_goals first
    | exact Option.noConfusion h
    | (injection h with h; subst h; first
        | exact ⟨_, _, rfl⟩
        | exact ValidateCacheTTL_only_validation _ _ (by assumption))

/-- Every error Config.Validate can produce is a validationError. -/
theorem Config.Validate_only_validation (c : Config) (e : SdkError)
    (h : c.Validate = some e) : ∃ f m, e = .validationError f m := by
  unfold Config.Validate at h
  repeat' split at h
  all_goals first
    | exact Option.noConfusion h
    | exact Config.validateCacheSection_only_validation _ _ h
    | (injection h with h; subst h; first
        | exact ⟨_, _, rfl⟩
        | exact ValidateAPIKey_only_validation _ _ (by assumption)
        | exact ValidateTimeout_only_validation _ _ (by assumption)
        | exact ValidateRetryConfig_only_validation _ _ _ _ (by assumption)
        | exact ValidateRateLimitConfig_only_validation _ _ _ (by assumption))

/-- ValidateTimeout succeeds exactly on positive timeouts of at most 10 minutes. -/
theorem ValidateTimeout_none_iff (t : Int) :
    ValidateTimeout t = none ↔ 0 < t ∧ t ≤ 10 * minute := by
  unfold ValidateTimeout
  repeat' split
  all_goals simp_all

/-- ValidateRetryConfig succeeds exactly on in-range retry parameters. -/
theorem ValidateRetryConfig_none_iff (r i m : Int) :
    ValidateRetryConfig r i m = none ↔ 0 ≤ r ∧ r ≤ 10 ∧ 0 < i ∧ 0 < m ∧ i ≤ m := by
  unfold ValidateRetryConfig
  repeat' split
  all_goals simp_all

/-- ValidateRateLimitConfig succeeds exactly on positive parameters. -/
theorem ValidateRateLimitConfig_none_iff (q w : Int) :
    ValidateRateLimitConfig q w = none ↔ 0 < q ∧ 0 < w := by
  unfold ValidateRateLimitConfig
  repeat' split
  all_goals simp_all

/-- ValidateCacheTTL succeeds exactly on TTLs in 0..24h. -/
theorem ValidateCacheTTL_none_iff (t : Int) :
    ValidateCacheTTL t = none ↔ 0 ≤ t ∧ t ≤ 24 * hour := by
  unfold ValidateCacheTTL
  repeat' split
  all_goals simp_all

/-- The cache block of Config.Validate succeeds exactly when the cache is
disabled or all cache parameters are in range. -/
theorem Config.validateCacheSection_none_iff (c : Config) :
    c.validateCacheSection = none ↔
      (c.CacheEnabled = true → 0 < c.CacheMaxEntries ∧
        (0 ≤ c.PINVerificationTTL ∧ c.PINVerificationTTL ≤ 24 * hour) ∧
        (0 ≤ c.TCCVerificationTTL ∧ c.TCCVerificationTTL ≤ 24 * hour) ∧
        (0 ≤ c.EslipValidationTTL ∧ c.EslipValidationTTL ≤ 24 * hour) ∧
        (0 ≤ c.TaxpayerDetailsTTL ∧ c.TaxpayerDetailsTTL ≤ 24 * hour) ∧
        (0 ≤ c.NILReturnTTL ∧ c.NILReturnTTL ≤ 24 * hour)) := by
  unfold Config.validateCacheSection
  repeat' split
  all_goals simp_all [ValidateCacheTTL_none_iff, ← ValidateCacheTTL_none_iff]

/-- If Config.Validate succeeds, every numeric configuration bound holds. -/
theorem Config.Validate_none_bounds (c : Config) (h : c.Validate = none) :
    0 < c.Timeout ∧ c.Timeout ≤ 10 * minute ∧
    0 ≤ c.MaxRetries ∧ c.MaxRetries ≤ 10 ∧
    0 < c.InitialDelay ∧ c.InitialDelay ≤ c.MaxDelay ∧
    (c.RateLimitEnabled = true → 0 < c.MaxRequests ∧ 0 < c.RateLimitWindow) ∧
    (c.CacheEnabled = true → 0 < c.CacheMaxEntries ∧
      0 ≤ c.PINVerificationTTL ∧ 0 ≤ c.TCCVerificationTTL ∧ 0 ≤ c.EslipValidationTTL ∧
      0 ≤ c.TaxpayerDetailsTTL ∧ 0 ≤ c.NILReturnTTL) := by
  unfold Config.Validate at h
  repeat' split at h
  all_goals try exact Option.noConfusion h
  all_goals
    simp_all [ValidateTimeout_none_iff, ValidateRetryConfig_none_iff,
      ValidateRateLimitConfig_none_iff, Config.validateCacheSection_none_iff]

/-- C7: for every configuration value, client construction (NewClient, which
calls Config.Validate) returns a Validation error whenever any of the listed
out-of-range conditions holds: timeout ≤ 0 or timeout > 10 minutes;
maxRetries < 0 or maxRetries > 10; initialDelay ≤ 0; maxDelay < initialDelay;
rate limiting enabled with maxRequests ≤ 0 or window ≤ 0; cache enabled with
maxEntries ≤ 0 or any per-operation TTL < 0. -/
theorem C7_construction_rejects_invalid_config (c : Config)
    (h : c.Timeout ≤ 0 ∨ 10 * minute < c.Timeout ∨
         c.MaxRetries < 0 ∨ 10 < c.MaxRetries ∨
         c.InitialDelay ≤ 0 ∨ c.MaxDelay < c.InitialDelay ∨
         (c.RateLimitEnabled = true ∧ (c.MaxRequests ≤ 0 ∨ c.RateLimitWindow ≤ 0)) ∨
         (c.CacheEnabled = true ∧ (c.CacheMaxEntries ≤ 0 ∨
           c.PINVerificationTTL < 0 ∨ c.TCCVerificationTTL < 0 ∨
           c.EslipValidationTTL < 0 ∨ c.TaxpayerDetailsTTL < 0 ∨ c.NILReturnTTL < 0))) :
    ∃ f m, c.Validate = some (SdkError.validationError f m) := by
  cases hv : c.Validate with
  | some e =>
    obtain ⟨f, m, rfl⟩ := Config.Validate_only_validation c e hv
    exact ⟨f, m, rfl⟩
  | none =>
    exfalso
    obtain ⟨h1, h2, h3, h4, h5, h6, h7, h8⟩ := Config.Validate_none_bounds c hv
    rcases h with h | h | h | h | h | h | ⟨hE, h⟩ | ⟨hE, h⟩
    · omega
    · omega
    · omega
    · omega
    · omega
    · omega
    · obtain ⟨hq, hw⟩ := h7 hE; omega
    · obtain ⟨hq, hp, ht, he, hd, hn⟩ := h8 hE; omega

/-- Witness for C7: a concrete configuration with a zero timeout is rejected
with a Validation error. -/
theorem C7_construction_rejects_invalid_config_witness :
    ∃ f m,
      Config.Validate
        { APIKey := "0123456789abcdef", BaseURL := "https://api.kra.go.ke",
          Timeout := 0, MaxRetries := 3,
          InitialDelay := 1000000000, MaxDelay := 32000000000,
          RateLimitEnabled := true, MaxRequests := 100, RateLimitWindow := 60000000000,
          CacheEnabled := true, PINVerificationTTL := 3600000000000,
          TCCVerificationTTL := 1800000000000, EslipValidationTTL := 900000000000,
          TaxpayerDetailsTTL := 7200000000000, NILReturnTTL := 86400000000000,
          CacheMaxEntries := 1024, DebugMode := false }
        = some (SdkError.validationError f m) :=
  C7_construction_rejects_invalid_config _ (by left; decide)

/-- The RateLimiter state of ratelimit.go.  The float64 refillRate field is
modelled exactly as a rational. -/
structure RateLimiter where
  maxTokens : Int
  tokens : Int
  refillRate : ℚ
  lastRefill : Int
  enabled : Bool
  windowPeriod : Int
deriving Repr, DecidableEq

/-- NewRateLimiter (ratelimit.go).  `now` is the construction time;
refillRate is maxRequests divided by the window length in seconds. -/
def NewRateLimiter (maxRequests : Int) (window : Int) (enabled : Bool) (now : Int) :
    RateLimiter :=
  if !enabled then
    { maxTokens := 0, tokens := 0, refillRate := 0, lastRefill := 0,
      enabled := false, windowPeriod := 0 }
  else
    { maxTokens := maxRequests, tokens := maxRequests,
      refillRate := (maxRequests : ℚ) / ((window : ℚ) / (second : ℚ)),
      lastRefill := now, enabled := true, windowPeriod := window }

/-- refill (ratelimit.go): lazily adds `int(elapsedSeconds * refillRate)`
tokens, capped at maxTokens, and moves lastRefill forward only when at least
one token is added.  `now` is the current reading of the monotonic clock. -/
def RateLimiter.refill (rl : RateLimiter) (now : Int) : RateLimiter :=
  let elapsed : ℚ := ((now - rl.lastRefill : Int) : ℚ) / (second : ℚ)
  let tokensToAdd : Int := ratTrunc (elapsed * rl.refillRate)
  if 0 < tokensToAdd then
    let t := rl.tokens + tokensToAdd
    let tCapped := if rl.maxTokens < t then rl.maxTokens else t
    { rl with tokens := tCapped, lastRefill := now }
  else rl

/-- tryAcquire (ratelimit.go): refill, then take one token when available. -/
def RateLimiter.tryAcquire (rl : RateLimiter) (now : Int) : Bool × RateLimiter :=
  let rl := rl.refill now
  if 0 < rl.tokens then (true, { rl with tokens := rl.tokens - 1 })
  else (false, rl)

/-- TryAcquire (ratelimit.go): public non-blocking variant; always succeeds
without touching state when disabled. -/
def RateLimiter.TryAcquire (rl : RateLimiter) (now : Int) : Bool × RateLimiter :=
  if !rl.enabled then (true, rl) else rl.tryAcquire now

/-- AvailableTokens (ratelimit.go): refills then reports the token count;
-1 signals unlimited when disabled. -/
def RateLimiter.AvailableTokens (rl : RateLimiter) (now : Int) : Int × RateLimiter :=
  if !rl.enabled then (-1, rl)
  else
    let rl := rl.refill now
    (rl.tokens, rl)

/-- Reset (ratelimit.go): restores full capacity and resets the refill clock. -/
def RateLimiter.Reset (rl : RateLimiter) (now : Int) : RateLimiter :=
  if !rl.enabled then rl
  else { rl with tokens := rl.maxTokens, lastRefill := now }

/-- The `time.Second / time.Duration(rl.refillRate)` computation shared by
Wait and EstimateWaitTime (ratelimit.go).  `time.Duration(rl.refillRate)`
truncates the float64 rate to an integer nanosecond count; when that
truncation is 0 the Go integer division panics, modelled by `none`. -/
def timePerToken (refillRate : ℚ) : Option Int :=
  let d : Int := ratTrunc refillRate
  if d = 0 then none else some (Int.tdiv second d)

/-- The duration Wait (ratelimit.go) sleeps between two tryAcquire attempts:
timePerToken plus a fixed 10ms buffer (`none` models the panic). -/
def RateLimiter.waitSleepDuration (rl : RateLimiter) : Option Int :=
  (timePerToken rl.refillRate).map (fun t => t + 10 * millisecond)

/-- EstimateWaitTime (ratelimit.go): 0 when disabled or a token is available
after refilling, otherwise timePerToken plus a 10ms buffer (`none` models the
division-by-zero panic). -/
def RateLimiter.EstimateWaitTime (rl : RateLimiter) (now : Int) :
    Option Int × RateLimiter :=
  if !rl.enabled then (some 0, rl)
  else
    let rl := rl.refill now
    if 0 < rl.tokens then (some 0, rl)
    else ((timePerToken rl.refillRate).map (fun t => t + 10 * millisecond), rl)

/-- One public rate-limiter operation, with the clock value it observes. -/
inductive RLOp where
  | tryAcquireOp (now : Int)
  | availableTokensOp (now : Int)
  | resetOp (now : Int)
  | estimateOp (now : Int)
deriving Repr, DecidableEq

/-- State effect of one public rate-limiter operation. -/
def RLOp.apply (op : RLOp) (rl : RateLimiter) : RateLimiter :=
  match op with
  | .tryAcquireOp now => (rl.TryAcquire now).2
  | .availableTokensOp now => (rl.AvailableTokens now).2
  | .resetOp now => rl.Reset now
  | .estimateOp now => (rl.EstimateWaitTime now).2

/-- Applies a sequence of public operations left to right. -/
def applyRLOps (ops : List RLOp) (rl : RateLimiter) : RateLimiter :=
  ops.foldl (fun s op => op.apply s) rl

/-- The token-count invariant of the rate limiter. -/
def RateLimiter.Inv (rl : RateLimiter) : Prop :=
  0 ≤ rl.tokens ∧ rl.tokens ≤ rl.maxTokens

/-- refill does not change the refill rate. -/
theorem RateLimiter.refill_refillRate (rl : RateLimiter) (now : Int) :
    (rl.refill now).refillRate = rl.refillRate := by
  unfold RateLimiter.refill
  dsimp only
  split <;> rfl

/-- refill preserves the token-count invariant. -/
theorem RateLimiter.refill_inv (rl : RateLimiter) (now : Int) (h : rl.Inv) :
    (rl.refill now).Inv := by
  obtain ⟨h1, h2⟩ := h
  unfold RateLimiter.refill
  dsimp only
  split
  · unfold RateLimiter.Inv
    split <;> dsimp only <;> omega
  · exact ⟨h1, h2⟩

/-- tryAcquire preserves the token-count invariant. -/
theorem RateLimiter.tryAcquire_inv (rl : RateLimiter) (now : Int) (h : rl.Inv) :
    (rl.tryAcquire now).2.Inv := by
  unfold RateLimiter.tryAcquire
  have h' := rl.refill_inv now h
  obtain ⟨h1, h2⟩ := h'
  dsimp only
  split <;> unfold RateLimiter.Inv <;> dsimp only <;> omega

/-- Every public operation preserves the token-count invariant. -/
theorem RLOp.apply_inv (op : RLOp) (rl : RateLimiter) (h : rl.Inv) :
    (op.apply rl).Inv := by
  obtain ⟨h1, h2⟩ := h
  cases op with
  | tryAcquireOp now =>
    simp only [RLOp.apply]
    unfold RateLimiter.TryAcquire
    split
    · exact ⟨h1, h2⟩
    · exact rl.tryAcquire_inv now ⟨h1, h2⟩
  | availableTokensOp now =>
    simp only [RLOp.apply]
    unfold RateLimiter.AvailableTokens
    split
    · exact ⟨h1, h2⟩
    · exact rl.refill_inv now ⟨h1, h2⟩
  | resetOp now =>
    simp only [RLOp.apply]
    unfold RateLimiter.Reset
    split
    · exact ⟨h1, h2⟩
    · unfold RateLimiter.Inv
      dsimp only
      omega
  | estimateOp now =>
    simp only [RLOp.apply]
    unfold RateLimiter.EstimateWaitTime
    split
    · exact ⟨h1, h2⟩
    · dsimp only
      have h' := rl.refill_inv now ⟨h1, h2⟩
      split
      · exact h'
      · exact h'

/-- A sequence of public operations preserves the token-count invariant. -/
theorem applyRLOps_inv (ops : List RLOp) (rl : RateLimiter) (h : rl.Inv) :
    (applyRLOps ops rl).Inv := by
  induction ops generalizing rl with
  | nil => exact h
  | cons op rest ih => exact ih _ (op.apply_inv rl h)

/-- C8: for a rate limiter constructed with capacity maxRequests ≥ 1, the
invariant 0 ≤ availableTokens ≤ capacity holds initially and after every
sequence of public operations (tryAcquire with its lazy refill,
AvailableTokens, Reset, EstimateWaitTime), at every observation point. -/
theorem C8_token_bucket_invariant (maxRequests window : Int) (enabled : Bool)
    (now0 : Int) (ops : List RLOp) (h : 1 ≤ maxRequests) :
    (NewRateLimiter maxRequests window enabled now0).Inv ∧
    (applyRLOps ops (NewRateLimiter maxRequests window enabled now0)).Inv := by
  have hinit : (NewRateLimiter maxRequests window enabled now0).Inv := by
    unfold NewRateLimiter RateLimiter.Inv
    split <;> dsimp only <;> omega
  exact ⟨hinit, applyRLOps_inv ops _ hinit⟩

/-- Witness for C8: a concrete run of acquisitions, resets and estimates on a
2-token limiter keeps the invariant. -/
theorem C8_token_bucket_invariant_witness :
    (NewRateLimiter 2 second true 0).Inv ∧
    (applyRLOps
      [RLOp.tryAcquireOp 0, RLOp.tryAcquireOp 0, RLOp.tryAcquireOp 0,
       RLOp.estimateOp 0, RLOp.resetOp 5, RLOp.availableTokensOp 7]
      (NewRateLimiter 2 second true 0)).Inv :=
  C8_token_bucket_invariant 2 second true 0
    [RLOp.tryAcquireOp 0, RLOp.tryAcquireOp 0, RLOp.tryAcquireOp 0,
     RLOp.estimateOp 0, RLOp.resetOp 5, RLOp.availableTokensOp 7]
    (by decide)

/-- C10: for every enabled rate limiter whose refill rate is below 1 token
per second (for example the one built from maxRequests = 1, window = 1 minute,
a configuration ValidateRateLimitConfig accepts), `time.Duration(refillRate)`
truncates to 0, so whenever no token is available after refilling, both the
Wait sleep computation and EstimateWaitTime divide by zero and panic
(modelled as `none`): the functions are not total over valid configurations. -/
theorem C10_division_by_zero_panic (rl : RateLimiter) (now : Int)
    (hE : rl.enabled = true) (h0 : 0 ≤ rl.refillRate) (h1 : rl.refillRate < 1)
    (hT : (rl.refill now).tokens ≤ 0) :
    (rl.EstimateWaitTime now).1 = none ∧ rl.waitSleepDuration = none ∧
    ValidateRateLimitConfig 1 minute = none ∧
    (NewRateLimiter 1 minute true 0).enabled = true ∧
    0 < (NewRateLimiter 1 minute true 0).refillRate ∧
    (NewRateLimiter 1 minute true 0).refillRate < 1 := by
  have htp : timePerToken rl.refillRate = none := by
    unfold timePerToken
    simp [ratTrunc_eq_zero rl.refillRate h0 h1]
  refine ⟨?_, ?_, by decide, rfl, ?_, ?_⟩
  · unfold RateLimiter.EstimateWaitTime
    rw [hE]
    simp only [Bool.not_true, Bool.false_eq_true, if_false]
    rw [if_neg (by omega)]
    simp [RateLimiter.refill_refillRate, htp]
  · unfold RateLimiter.waitSleepDuration
    simp [htp]
  · norm_num [NewRateLimiter, minute, second]
  · norm_num [NewRateLimiter, minute, second]

/-- Witness for C10: the 1-request-per-minute limiter with its single token
spent panics in EstimateWaitTime and in Wait's sleep computation. -/
theorem C10_division_by_zero_panic_witness :
    (RateLimiter.EstimateWaitTime
        { NewRateLimiter 1 minute true 0 with tokens := 0 } 0).1 = none ∧
    RateLimiter.waitSleepDuration
        { NewRateLimiter 1 minute true 0 with tokens := 0 } = none ∧
    ValidateRateLimitConfig 1 minute = none ∧
    (NewRateLimiter 1 minute true 0).enabled = true ∧
    0 < (NewRateLimiter 1 minute true 0).refillRate ∧
    (NewRateLimiter 1 minute true 0).refillRate < 1 :=
  C10_division_by_zero_panic _ 0 rfl
    (by norm_num [NewRateLimiter, minute, second])
    (by norm_num [NewRateLimiter, minute, second])
    (by norm_num [NewRateLimiter, RateLimiter.refill, ratTrunc, minute, second])

/-- C4 (amended): for an enabled rate limiter, EstimateWaitTime returns 0 when
a token is available after refilling; when none is available it returns the
same duration Wait sleeps between two tryAcquire attempts, namely one second
integer-divided by the truncation of refillRate, plus the fixed 10ms buffer —
and that coincides with the spec's exact `1/refillRate seconds + buffer`
precisely when refillRate is an integer dividing one second in nanoseconds. -/
theorem C4_estimate_wait_time (rl : RateLimiter) (now : Int)
    (hE : rl.enabled = true) :
    (0 < (rl.refill now).tokens → (rl.EstimateWaitTime now).1 = some 0) ∧
    ((rl.refill now).tokens ≤ 0 →
      (rl.EstimateWaitTime now).1 = rl.waitSleepDuration ∧
      ∀ k : Int, rl.refillRate = (k : ℚ) → 0 < k → k ∣ second →
        (rl.EstimateWaitTime now).1 = some (Int.tdiv second k + 10 * millisecond) ∧
        ((Int.tdiv second k : Int) : ℚ) = (second : ℚ) / rl.refillRate) := by
  unfold RateLimiter.EstimateWaitTime
  rw [hE]
  simp only [Bool.not_true, Bool.false_eq_true, if_false]
  constructor
  · intro h
    rw [if_pos h]
  · intro h
    rw [if_neg (by omega)]
    refine ⟨?_, ?_⟩
    · unfold RateLimiter.waitSleepDuration
      rw [RateLimiter.refill_refillRate]
    · intro k hk hk0 hdvd
      have hkne : k ≠ 0 := by omega
      have htr : ratTrunc rl.refillRate = k := by rw [hk]; exact ratTrunc_intCast k
      constructor
      · simp [RateLimiter.refill_refillRate, timePerToken, htr, hkne]
      · obtain ⟨c, hc⟩ := hdvd
        rw [hk, hc, Int.mul_tdiv_cancel_left c hkne]
        have hkq : (k : ℚ) ≠ 0 := Int.cast_ne_zero.mpr hkne
        push_cast
        field_simp

/-- Witness for C4: an enabled limiter with rate 2 tokens/second and no
tokens left reports one half second plus the 10ms buffer. -/
theorem C4_estimate_wait_time_witness :
    (RateLimiter.EstimateWaitTime
        { NewRateLimiter 2 second true 0 with tokens := 0 } 0).1
      = some (Int.tdiv second 2 + 10 * millisecond) := by
  have h := C4_estimate_wait_time { NewRateLimiter 2 second true 0 with tokens := 0 } 0 rfl
  refine ((h.2 ?_).2 2 ?_ (by decide) (by decide)).1
  · norm_num [NewRateLimiter, RateLimiter.refill, ratTrunc, second]
  · norm_num [NewRateLimiter, second]

/-- C4 counterexample: the limiter of 100 requests per minute has refillRate
5/3 tokens per second; with its tokens spent, EstimateWaitTime returns
1.01 seconds (time.Second divided by the truncation of 5/3, plus 10ms),
while the claimed `1/refillRate seconds + buffer` is 0.61 seconds. -/
theorem C4_estimate_wait_time_counterexample :
    (RateLimiter.EstimateWaitTime
        { NewRateLimiter 100 minute true 0 with tokens := 0 } 0).1
      = some 1010000000 ∧
    ((second : ℚ) / (NewRateLimiter 100 minute true 0).refillRate
        + ((10 * millisecond : Int) : ℚ)) = 610000000 ∧
    (1010000000 : Int) ≠ 610000000 := by
  refine ⟨?_, ?_, by decide⟩
  · norm_num [NewRateLimiter, RateLimiter.EstimateWaitTime, RateLimiter.refill,
      timePerToken, ratTrunc, minute, second, millisecond]
    exact ⟨1000000000, ⟨by decide, by decide⟩, by decide⟩
  · norm_num [NewRateLimiter, minute, second, millisecond]

/-- calculateBackoff (http.go): exponential factor 2^attempt on the supplied
base delay, cap at maxDelay, multiplicative jitter of ±25% (the unit jitter
`u = rand.Float64()*2 - 1` ranges over [-1, 1)), and a floor applied to the
raw float value 100 — which as a time.Duration is 100 nanoseconds, although
the inline source comment says "minimum delay of 100ms".  The final
time.Duration conversion truncates toward zero. -/
def calculateBackoff (maxDelay : Int) (baseDelay : Int) (attempt : Nat) (u : ℚ) : Int :=
  let b1 : ℚ := (baseDelay : ℚ) * 2 ^ attempt
  let b2 : ℚ := if (maxDelay : ℚ) < b1 then (maxDelay : ℚ) else b1
  let b3 : ℚ := b2 + b2 * (1 / 4) * u
  let b4 : ℚ := if b3 < 100 then 100 else b3
  ratTrunc b4

/-- The running `delay` variable of executeWithRetry (http.go) at the start of
iteration n: InitialDelay, then doubled after every iteration, capped at
MaxDelay. -/
def delayAt (initialDelay maxDelay : Int) : Nat → Int
  | 0 => initialDelay
  | n + 1 =>
    let d := delayAt initialDelay maxDelay n * 2
    if maxDelay < d then maxDelay else d

/-- The backoff duration executeWithRetry (http.go) computes and sleeps at
the end of loop iteration n (the code's attempt counter n, which the claims
call retry number n), with jitter unit u. -/
def backoffAt (initialDelay maxDelay : Int) (n : Nat) (u : ℚ) : Int :=
  calculateBackoff maxDelay (delayAt initialDelay maxDelay n) n u

/-- With the jitter term set to zero, calculateBackoff is the cap followed by
the raw floor at 100 nanoseconds. -/
theorem calculateBackoff_zero_jitter (M d : Int) (n : Nat) :
    calculateBackoff M d n 0 = max (min (d * 2 ^ n) M) 100 := by
  unfold calculateBackoff
  dsimp only
  simp only [mul_zero, add_zero]
  have hcast : (d : ℚ) * 2 ^ n = ((d * 2 ^ n : Int) : ℚ) := by push_cast; ring
  rw [hcast]
  have h100 : (100 : ℚ) = ((100 : Int) : ℚ) := by norm_num
  split_ifs with hA hB hB
  · rw [h100, ratTrunc_intCast]
    have hA' : M < d * 2 ^ n := by exact_mod_cast hA
    have hB' : M < 100 := by exact_mod_cast (h100 ▸ hB)
    omega
  · rw [ratTrunc_intCast]
    have hA' : M < d * 2 ^ n := by exact_mod_cast hA
    have hB' : ¬ M < 100 := by
      intro hc
      exact hB (by exact_mod_cast hc)
    omega
  · rw [h100, ratTrunc_intCast]
    have hA' : ¬ M < d * 2 ^ n := by
      intro hc
      exact hA (by exact_mod_cast hc)
    have hB' : d * 2 ^ n < 100 := by exact_mod_cast (h100 ▸ hB)
    omega
  · rw [ratTrunc_intCast]
    have hA' : ¬ M < d * 2 ^ n := by
      intro hc
      exact hA (by exact_mod_cast hc)
    have hB' : ¬ d * 2 ^ n < 100 := by
      intro hc
      exact hB (by exact_mod_cast hc)
    omega

/-- Unfolding of the delay recurrence at a successor index. -/
theorem delayAt_succ (I M : Int) (n : Nat) :
    delayAt I M (n + 1) =
      if M < delayAt I M n * 2 then M else delayAt I M n * 2 := rfl

/-- The running delay stays positive and below MaxDelay. -/
theorem delayAt_pos_le (I M : Int) (h1 : 0 < I) (h2 : I ≤ M) (n : Nat) :
    0 < delayAt I M n ∧ delayAt I M n ≤ M := by
  induction n with
  | zero => exact ⟨h1, h2⟩
  | succ n ih =>
    rw [delayAt_succ]
    split <;> omega

/-- The running delay never decreases. -/
theorem delayAt_mono (I M : Int) (h1 : 0 < I) (h2 : I ≤ M) (n : Nat) :
    delayAt I M n ≤ delayAt I M (n + 1) := by
  obtain ⟨hp, hle⟩ := delayAt_pos_le I M h1 h2 n
  rw [delayAt_succ]
  split <;> omega

/-- C2: the claim that the jitter-free backoff before retry n equals
initialDelay * 2^n capped at maxDelay, with a post-jitter floor of 100ms,
fails on the code: executeWithRetry doubles its running delay after every
iteration and calculateBackoff additionally multiplies by 2^attempt, so with
initialDelay = 1s and maxDelay = 60s the jitter-free delay before retry 1 is
4s, not 2s; and the floor compares the float value against the raw number
100, i.e. 100 nanoseconds, so with initialDelay = 1ns the delay actually
slept is 100ns, far below 100ms — contradicting the source's own inline
comment "Ensure minimum delay of 100ms". -/
theorem C2_backoff_eval :
    backoffAt second (60 * second) 1 0 = 4 * second ∧
    (4 * second : Int) ≠ 2 * second ∧
    backoffAt 1 (32 * second) 0 0 = 100 ∧
    (100 : Int) < 100 * millisecond := by
  refine ⟨?_, by decide, ?_, by decide⟩
  · rw [backoffAt, calculateBackoff_zero_jitter]
    norm_num [delayAt, second]
  · rw [backoffAt, calculateBackoff_zero_jitter]
    norm_num [delayAt, second]

/-- C9 (amended): with the jitter term set to zero, the computed backoff
delays across successive retry attempts are non-decreasing in the attempt
number, and no element exceeds max(maxDelay, 100ns) — the raw floor of 100
(nanoseconds) can push a delay above a sub-100ns maxDelay, otherwise the
maxDelay cap holds. -/
theorem C9_backoff_monotone_capped (I M : Int) (n : Nat)
    (h1 : 0 < I) (h2 : I ≤ M) :
    backoffAt I M n 0 ≤ backoffAt I M (n + 1) 0 ∧
    backoffAt I M n 0 ≤ max M 100 := by
  obtain ⟨hpn, hlen⟩ := delayAt_pos_le I M h1 h2 n
  have hmono := delayAt_mono I M h1 h2 n
  unfold backoffAt
  rw [calculateBackoff_zero_jitter, calculateBackoff_zero_jitter]
  constructor
  · have h2n : (2 : Int) ^ n ≤ 2 ^ (n + 1) := by
      have := pow_le_pow_right₀ (a := (2 : Int)) (by norm_num) (Nat.le_succ n)
      exact this
    have hprod : delayAt I M n * 2 ^ n ≤ delayAt I M (n + 1) * 2 ^ (n + 1) :=
      mul_le_mul hmono h2n (by positivity) (by omega)
    exact max_le_max (min_le_min hprod (le_refl M)) (le_refl 100)
  · exact max_le_max (min_le_right _ _) (le_refl 100)

/-- Witness for C9: the amended monotonicity and cap at the default
initialDelay = 1s, maxDelay = 32s, first step. -/
theorem C9_backoff_monotone_capped_witness :
    backoffAt second (32 * second) 0 0 ≤ backoffAt second (32 * second) 1 0 ∧
    backoffAt second (32 * second) 0 0 ≤ max (32 * second) 100 :=
  C9_backoff_monotone_capped second (32 * second) 0 (by decide) (by decide)

/-- C9 counterexample: the claim as stated requires every jitter-free backoff
to stay at or below maxDelay for every configuration with
0 < initialDelay ≤ maxDelay; with initialDelay = maxDelay = 50ns the first
backoff is floored up to 100ns, exceeding maxDelay. -/
theorem C9_backoff_cap_counterexample :
    backoffAt 50 50 0 0 = 100 ∧ ¬ backoffAt 50 50 0 0 ≤ 50 := by
  rw [backoffAt, calculateBackoff_zero_jitter]
  norm_num [delayAt]

/-- A cache entry: the stored value and its expiration instant. -/
structure CacheEntry where
  value : String
  expiresAt : Int
deriving Repr, DecidableEq

/-- Modelled from the spec: the repository's operative CacheManager is the
TTL-LRU variant whose three-argument constructor NewCacheManager(enabled,
debug, maxEntries) is called by NewClient (client.go) and exercised by
TestCacheManager_EvictsLeastRecentlyUsed (cache_test.go), but whose
implementation file is missing from this snapshot — src/cache.go holds an
earlier non-LRU variant with a two-argument constructor that those callers
cannot compile against.  Entries are kept in recency order,
most-recently-used first; eviction removes from the tail. -/
structure CacheManager where
  maxEntries : Nat
  entries : List (String × CacheEntry)
  enabled : Bool
deriving Repr, DecidableEq

/-- Modelled from the spec: NewCacheManager(enabled, debug, maxEntries)
starts empty; debug only controls logging. -/
def NewCacheManager (enabled : Bool) (debug : Bool) (maxEntries : Nat) : CacheManager :=
  { maxEntries := maxEntries, entries := [], enabled := enabled }

/-- Modelled from the spec: Get — a disabled cache always misses; a present
entry whose expiresAt has passed (now strictly after expiresAt) is treated as
a miss and proactively removed; otherwise the entry is marked
most-recently-used and its value is returned. -/
def CacheManager.Get (cm : CacheManager) (now : Int) (key : String) :
    Option String × CacheManager :=
  if !cm.enabled then (none, cm)
  else
    match cm.entries.find? (fun q => q.1 == key) with
    | none => (none, cm)
    | some p =>
      if p.2.expiresAt < now then
        (none, { cm with entries := cm.entries.filter (fun q => q.1 != key) })
      else
        (some p.2.value,
         { cm with entries := p :: cm.entries.filter (fun q => q.1 != key) })

/-- Modelled from the spec: Set — a disabled cache ignores writes; otherwise
the entry replaces any previous entry for the key at the most-recently-used
position with expiresAt = now + ttl, and when capacity is exceeded the
least-recently-used entries (the tail) are evicted until back within
capacity. -/
def CacheManager.Set (cm : CacheManager) (now : Int) (key value : String)
    (ttl : Int) : CacheManager :=
  if !cm.enabled then cm
  else
    let pruned := cm.entries.filter (fun q => q.1 != key)
    { cm with entries := ((key, ⟨value, now + ttl⟩) :: pruned).take cm.maxEntries }

/-- Modelled from the spec: Delete removes the entry when present. -/
def CacheManager.Delete (cm : CacheManager) (key : String) : CacheManager :=
  if !cm.enabled then cm
  else { cm with entries := cm.entries.filter (fun q => q.1 != key) }

/-- Modelled from the spec: Clear removes all entries. -/
def CacheManager.Clear (cm : CacheManager) : CacheManager :=
  if !cm.enabled then cm else { cm with entries := [] }

/-- Modelled from the spec: Size is the live entry count, 0 when disabled. -/
def CacheManager.Size (cm : CacheManager) : Nat :=
  if !cm.enabled then 0 else cm.entries.length

/-- One cache operation with the clock value it observes. -/
inductive CacheOp where
  | getOp (now : Int) (key : String)
  | setOp (now : Int) (key value : String) (ttl : Int)
  | deleteOp (key : String)
  | clearOp
deriving Repr, DecidableEq

/-- State effect of one cache operation. -/
def CacheOp.apply (op : CacheOp) (cm : CacheManager) : CacheManager :=
  match op with
  | .getOp now key => (cm.Get now key).2
  | .setOp now key value ttl => cm.Set now key value ttl
  | .deleteOp key => cm.Delete key
  | .clearOp => cm.Clear

/-- Applies a sequence of cache operations left to right. -/
def applyCacheOps (ops : List CacheOp) (cm : CacheManager) : CacheManager :=
  ops.foldl (fun s op => op.apply s) cm

/-- Removing the entries of a key that find? locates strictly shrinks the
list. -/
theorem length_filter_lt_of_find? (l : List (String × CacheEntry)) (key : String)
    (p : String × CacheEntry) (h : l.find? (fun q => q.1 == key) = some p) :
    (l.filter (fun q => q.1 != key)).length < l.length := by
  refine List.length_filter_lt_length_iff_exists.mpr ?_
  refine ⟨p, List.mem_of_find?_eq_some h, ?_⟩
  have := List.find?_some h
  simp_all [bne]

/-- No cache operation changes the capacity or the enabled flag. -/
theorem CacheOp.apply_fields (op : CacheOp) (cm : CacheManager) :
    (op.apply cm).maxEntries = cm.maxEntries ∧ (op.apply cm).enabled = cm.enabled := by
  cases op with
  | getOp now key =>
    simp only [CacheOp.apply]
    unfold CacheManager.Get
    split
    · exact ⟨rfl, rfl⟩
    · split
      · exact ⟨rfl, rfl⟩
      · split <;> exact ⟨rfl, rfl⟩
  | setOp now key value ttl =>
    simp only [CacheOp.apply]
    unfold CacheManager.Set
    split <;> exact ⟨rfl, rfl⟩
  | deleteOp key =>
    simp only [CacheOp.apply]
    unfold CacheManager.Delete
    split <;> exact ⟨rfl, rfl⟩
  | clearOp =>
    simp only [CacheOp.apply]
    unfold CacheManager.Clear
    split <;> exact ⟨rfl, rfl⟩

/-- Every cache operation preserves the capacity bound on the entry count. -/
theorem CacheOp.apply_length_le (op : CacheOp) (cm : CacheManager)
    (h : cm.entries.length ≤ cm.maxEntries) :
    (op.apply cm).entries.length ≤ cm.maxEntries := by
  cases op with
  | getOp now key =>
    simp only [CacheOp.apply]
    unfold CacheManager.Get
    split
    · exact h
    · split
      · exact h
      · rename_i p hFind
        split
        · dsimp only
          have := length_filter_lt_of_find? cm.entries key p hFind
          omega
        · dsimp only
          have := length_filter_lt_of_find? cm.entries key p hFind
          simp only [List.length_cons]
          omega
  | setOp now key value ttl =>
    simp only [CacheOp.apply]
    unfold CacheManager.Set
    split
    · exact h
    · dsimp only
      rw [List.length_take]
      omega
  | deleteOp key =>
    simp only [CacheOp.apply]
    unfold CacheManager.Delete
    split
    · exact h
    · dsimp only
      have := List.length_filter_le (fun q => q.1 != key) cm.entries
      omega
  | clearOp =>
    simp only [CacheOp.apply]
    unfold CacheManager.Clear
    split
    · exact h
    · simp

/-- A sequence of cache operations preserves the capacity bound. -/
theorem applyCacheOps_length_le (ops : List CacheOp) (cm : CacheManager)
    (h : cm.entries.length ≤ cm.maxEntries) :
    (applyCacheOps ops cm).entries.length ≤ (applyCacheOps ops cm).maxEntries := by
  induction ops generalizing cm with
  | nil => exact h
  | cons op rest ih =>
    have hf := op.apply_fields cm
    have hl := op.apply_length_le cm h
    exact ih (op.apply cm) (by rw [hf.1]; exact hl)

/-- C1: for every CacheManager the number of live entries never exceeds
maxEntries across any sequence of Get/Set/Delete/Clear operations, with
least-recently-used eviction on insertion (recency updated on both Get and
Set); in particular with maxEntries = 2, after Set(a), Set(b), Get(a),
Set(c), a lookup finds a and c but not b. -/
theorem C1_lru_capacity_and_eviction (cm : CacheManager) (ops : List CacheOp)
    (h : cm.entries.length ≤ cm.maxEntries) :
    (applyCacheOps ops cm).entries.length ≤ (applyCacheOps ops cm).maxEntries ∧
    (let c3 := ((((NewCacheManager true false 2).Set 0 "a" "A" hour).Set 0
        "b" "B" hour).Get 1 "a").2.Set 1 "c" "C" hour
     (c3.Get 2 "a").1 = some "A" ∧ (c3.Get 2 "b").1 = none ∧
     (c3.Get 2 "c").1 = some "C") := by
  refine ⟨applyCacheOps_length_le ops cm h, ?_⟩
  decide

/-- Witness for C1: the capacity bound holds on the two-entry cache after the
eviction scenario's operation sequence, and the LRU scenario itself. -/
theorem C1_lru_capacity_and_eviction_witness :
    (applyCacheOps
      [CacheOp.setOp 0 "a" "A" hour, CacheOp.setOp 0 "b" "B" hour,
       CacheOp.getOp 1 "a", CacheOp.setOp 1 "c" "C" hour]
      (NewCacheManager true false 2)).entries.length ≤
    (applyCacheOps
      [CacheOp.setOp 0 "a" "A" hour, CacheOp.setOp 0 "b" "B" hour,
       CacheOp.getOp 1 "a", CacheOp.setOp 1 "c" "C" hour]
      (NewCacheManager true false 2)).maxEntries ∧
    (let c3 := ((((NewCacheManager true false 2).Set 0 "a" "A" hour).Set 0
        "b" "B" hour).Get 1 "a").2.Set 1 "c" "C" hour
     (c3.Get 2 "a").1 = some "A" ∧ (c3.Get 2 "b").1 = none ∧
     (c3.Get 2 "c").1 = some "C") :=
  C1_lru_capacity_and_eviction (NewCacheManager true false 2)
    [CacheOp.setOp 0 "a" "A" hour, CacheOp.setOp 0 "b" "B" hour,
     CacheOp.getOp 1 "a", CacheOp.setOp 1 "c" "C" hour]
    (by decide)

/-- C6: for an enabled cache, Get on a key whose stored entry has expired
(expiresAt strictly before now) returns a miss and proactively removes the
entry — immediately afterwards the key is absent and Size no longer counts
it — while Get on an unexpired entry returns the stored value, moves it to
the most-recently-used (head) position, and reports found. -/
theorem C6_get_expired_removes_and_hit_marks_mru (cm : CacheManager)
    (now : Int) (key : String) (p : String × CacheEntry)
    (hE : cm.enabled = true)
    (hFind : cm.entries.find? (fun q => q.1 == key) = some p) :
    (p.2.expiresAt < now →
      (cm.Get now key).1 = none ∧
      (cm.Get now key).2.entries.find? (fun q => q.1 == key) = none ∧
      (cm.Get now key).2.Size < cm.Size) ∧
    (¬ p.2.expiresAt < now →
      (cm.Get now key).1 = some p.2.value ∧
      (cm.Get now key).2.entries.head? = some p) := by
  unfold CacheManager.Get
  rw [hE]
  simp only [Bool.not_true, Bool.false_eq_true, if_false]
  rw [hFind]
  dsimp only
  constructor
  · intro hexp
    rw [if_pos hexp]
    refine ⟨rfl, ?_, ?_⟩
    · rw [List.find?_eq_none]
      intro q hq
      have hmem := (List.mem_filter.mp hq).2
      simp_all [bne]
    · have hlt := length_filter_lt_of_find? cm.entries key p hFind
      unfold CacheManager.Size
      simp only [hE]
      simp [hE]
      omega
  · intro hexp
    rw [if_neg hexp]
    exact ⟨rfl, rfl⟩

/-- Witness for C6: a one-entry cache whose entry expired at instant 10,
read at instant 11: the read misses, removes the entry, and Size drops. -/
theorem C6_get_expired_removes_and_hit_marks_mru_witness :
    let cm : CacheManager :=
      { maxEntries := 4, entries := [("k", ⟨"v", 10⟩)], enabled := true }
    (cm.Get 11 "k").1 = none ∧
    (cm.Get 11 "k").2.entries.find? (fun q => q.1 == "k") = none ∧
    (cm.Get 11 "k").2.Size < cm.Size :=
  (C6_get_expired_removes_and_hit_marks_mru
    { maxEntries := 4, entries := [("k", ⟨"v", 10⟩)], enabled := true }
    11 "k" ("k", ⟨"v", 10⟩) rfl (by decide)).1 (by decide)

/-- DefaultConfig (config.go). -/
def DefaultConfig : Config :=
  { APIKey := "", BaseURL := "https://api.kra.go.ke/gavaconnect/v1",
    Timeout := 30 * second, MaxRetries := 3,
    InitialDelay := second, MaxDelay := 32 * second,
    RateLimitEnabled := true, MaxRequests := 100, RateLimitWindow := minute,
    CacheEnabled := true, PINVerificationTTL := hour,
    TCCVerificationTTL := 30 * minute, EslipValidationTTL := 15 * minute,
    TaxpayerDetailsTTL := 2 * hour, NILReturnTTL := 24 * hour,
    CacheMaxEntries := 1024, DebugMode := false }

/-- The parsed shape of a response body (apiResponse in http.go): either
json.Unmarshal fails, or it yields a success flag, a data payload, an
optional error object carrying (message, details), and a top-level message;
`raw` is the body's byte string. -/
inductive RespBody where
  | malformed (raw : String)
  | parsed (success : Bool) (data : List (String × String))
      (errObj : Option (String × String)) (message : String) (raw : String)
deriving Repr, DecidableEq

/-- One request as executed by the HTTP client (apiRequest in http.go),
with the two request-level failure modes of execute: json.Marshal of the
body failing, and http.NewRequestWithContext failing. -/
structure ApiRequest where
  method : String
  endpoint : String
  marshalFails : Bool
  createFails : Bool
deriving Repr, DecidableEq

/-- What the transport does on one attempt: the connection-level call fails
(client.Do error), reading the response body fails (io.ReadAll error), or a
status code and a body arrive. -/
inductive AttemptOutcome where
  | doError (cause : String)
  | readFail (statusCode : Int)
  | response (statusCode : Int) (body : RespBody)
deriving Repr, DecidableEq

/-- handleErrorResponse (http.go): classification of a non-200 status into
the error taxonomy; the body is reparsed only to improve the message. -/
def handleErrorResponse (cfg : Config) (statusCode : Int) (body : RespBody)
    (endpoint : String) : SdkError :=
  let bodyStr :=
    match body with
    | .malformed raw => raw
    | .parsed _ _ none _ raw => raw
    | .parsed _ _ (some (msg, details)) _ _ =>
      if details = "" then msg else msg ++ ": " ++ details
  if statusCode = 401 then
    .authenticationError "Authentication failed. Please check your API key."
  else if statusCode = 403 then
    .authenticationError "Access forbidden. Your API key may not have the required permissions."
  else if statusCode = 429 then
    .rateLimitError (60 * second) cfg.MaxRequests cfg.RateLimitWindow
  else if statusCode = 408 then
    .timeoutError endpoint cfg.Timeout 1
  else if statusCode = 400 then
    .apiError 400 ("Bad request: " ++ bodyStr) endpoint bodyStr
  else if statusCode = 404 then
    .apiError 404 ("Endpoint not found: " ++ endpoint) endpoint bodyStr
  else .apiError statusCode bodyStr endpoint bodyStr

/-- execute (http.go): one send.  Returns Go's `(map, error)` as an Except
and whether the transport was actually invoked (client.Do reached).  The
marshal, request-creation and body-read failures, wrapped by fmt.Errorf in
the source, surface as rawError values. -/
def executeOnce (cfg : Config) (req : ApiRequest) (att : AttemptOutcome) :
    Except SdkError (List (String × String)) × Bool :=
  if req.marshalFails then
    (.error (.rawError "failed to marshal request body"), false)
  else if req.createFails then
    (.error (.rawError "failed to create request"), false)
  else
    match att with
    | .doError cause => (.error (.networkError req.endpoint cause), true)
    | .readFail _ => (.error (.rawError "failed to read response body"), true)
    | .response statusCode body =>
      if statusCode ≠ 200 then
        (.error (handleErrorResponse cfg statusCode body req.endpoint), true)
      else
        match body with
        | .malformed raw =>
          (.error (.apiError statusCode "Failed to parse API response" req.endpoint raw),
           true)
        | .parsed success data errObj message raw =>
          if success then (.ok data, true)
          else
            let errorMsg :=
              match errObj with
              | some (msg, _) => msg
              | none => if message ≠ "" then message else "API request failed"
            (.error (.apiError statusCode errorMsg req.endpoint raw), true)

/-- The retry-stopping checks of executeWithRetry (http.go): an APIError that
IsClientError (4xx) other than 429, a ValidationError, or an
AuthenticationError is returned immediately; every other error is retried. -/
def isTerminal : SdkError → Bool
  | .apiError statusCode _ _ _ =>
    SdkError.isClientErrorCode statusCode && decide (statusCode ≠ 429)
  | .validationError _ _ => true
  | .authenticationError _ => true
  | _ => false

/-- The retry loop of executeWithRetry (http.go), driven by a script giving
each attempt index its transport outcome and by a cancellation predicate
(`cancelled n` holds when the context is done before attempt n runs; a
cancellation that fires during the backoff sleep or the rate-limit wait
surfaces at the start of the next iteration with the same observable result
and transport-call count, matching the source's select statements).  The
fuel argument counts the remaining loop iterations, maxRetries + 1 minus the
attempt index.  Returns Go's `(map, error)` pair and the number of transport
calls made. -/
def retryLoop (cfg : Config) (req : ApiRequest) (script : Nat → AttemptOutcome)
    (cancelled : Nat → Bool) :
    Nat → Nat → Option SdkError →
    (Option (List (String × String)) × Option SdkError) × Nat
  | _, 0, lastErr => ((none, lastErr), 0)
  | attempt, fuel + 1, lastErr =>
    if cancelled attempt then ((none, some (.rawError "context canceled")), 0)
    else
      let r0 := executeOnce cfg req (script attempt)
      let cost : Nat := if r0.2 then 1 else 0
      match r0.1 with
      | .ok data => ((some data, none), cost)
      | .error err =>
        if isTerminal err then ((none, some err), cost)
        else if fuel = 0 then ((none, some err), cost)
        else
          let r := retryLoop cfg req script cancelled (attempt + 1) fuel (some err)
          (r.1, cost + r.2)

/-- executeWithRetry (http.go): the loop `for attempt := 0; attempt <=
maxRetries; attempt++` run from attempt 0 with maxRetries + 1 iterations of
fuel and no last error. -/
def executeWithRetry (cfg : Config) (req : ApiRequest)
    (script : Nat → AttemptOutcome) (cancelled : Nat → Bool) :
    (Option (List (String × String)) × Option SdkError) × Nat :=
  retryLoop cfg req script cancelled 0 (cfg.MaxRetries + 1).toNat none

/-- When every attempt yields a retried (non-terminal) error, the loop uses
all its fuel: one transport call per iteration. -/
theorem retryLoop_exhausts_on_nonterminal (cfg : Config) (req : ApiRequest)
    (script : Nat → AttemptOutcome) (cancelled : Nat → Bool)
    (hcan : ∀ n, cancelled n = false)
    (hscript : ∀ n, ∃ e, (executeOnce cfg req (script n)).1 = .error e ∧
      isTerminal e = false ∧ (executeOnce cfg req (script n)).2 = true) :
    ∀ fuel attempt lastErr,
      (retryLoop cfg req script cancelled attempt fuel lastErr).2 = fuel := by
  intro fuel
  induction fuel with
  | zero => intro attempt lastErr; rfl
  | succ fuel ih =>
    intro attempt lastErr
    obtain ⟨e, he, hterm, hsent⟩ := hscript attempt
    rw [retryLoop, hcan attempt]
    simp only [Bool.false_eq_true, if_false]
    split
    · rename_i data heq
      rw [he] at heq
      exact Except.noConfusion heq
    · rename_i err heq
      rw [he] at heq
      injection heq with heq
      subst heq
      rw [hterm]
      simp only [Bool.false_eq_true, if_false]
      split
      · rename_i hfuel
        subst hfuel
        simp [hsent]
      · simp [hsent, ih (attempt + 1) (some e)]
        omega

/-- The loop makes at most as many transport calls as it has fuel. -/
theorem retryLoop_calls_le (cfg : Config) (req : ApiRequest)
    (script : Nat → AttemptOutcome) (cancelled : Nat → Bool) :
    ∀ fuel attempt lastErr,
      (retryLoop cfg req script cancelled attempt fuel lastErr).2 ≤ fuel := by
  intro fuel
  induction fuel with
  | zero => intro attempt lastErr; rfl
  | succ fuel ih =>
    intro attempt lastErr
    rw [retryLoop]
    split
    · simp
    · dsimp only
      split
      · split <;> simp
      · split
        · split <;> simp
        · split
          · split <;> simp
          · rename_i err heq hterm hfuel
            have := ih (attempt + 1) (some err)
            dsimp only
            split <;> omega

/-- C3: with maxRetries ≥ 1 and a well-formed request, a transport answering
HTTP 500 then 200-with-success yields exactly 2 transport calls and success;
HTTP 400 on the first attempt yields exactly 1 transport call and a terminal
APIFailure; 401/403 map to Authentication (terminal), 429 to RateLimit
(retried), 408 to Timeout (retried), other 4xx to APIFailure (terminal), 5xx
and malformed-body parse errors to APIFailure (retried); scripts that always
answer 429, 408 or a transport failure are retried to exactly maxRetries + 1
transport sends; and no run ever exceeds maxRetries + 1 transport calls. -/
theorem C3_retry_classification (cfg : Config) (req : ApiRequest)
    (b5 b4 : RespBody) (data : List (String × String)) (raw : String)
    (hr : 1 ≤ cfg.MaxRetries) (hm : req.marshalFails = false)
    (hc : req.createFails = false) :
    (executeWithRetry cfg req
        (fun n => if n = 0 then .response 500 b5
                  else .response 200 (.parsed true data none "" raw))
        (fun _ => false)
      = ((some data, none), 2)) ∧
    (executeWithRetry cfg req (fun _ => .response 400 b4) (fun _ => false)
        = ((none, some (handleErrorResponse cfg 400 b4 req.endpoint)), 1) ∧
      ∃ m b, handleErrorResponse cfg 400 b4 req.endpoint
        = .apiError 400 m req.endpoint b) ∧
    (∀ status body endpoint,
      ((status = 401 ∨ status = 403) →
        (∃ m, handleErrorResponse cfg status body endpoint = .authenticationError m) ∧
        isTerminal (handleErrorResponse cfg status body endpoint) = true) ∧
      (status = 429 →
        handleErrorResponse cfg status body endpoint
          = .rateLimitError (60 * second) cfg.MaxRequests cfg.RateLimitWindow ∧
        isTerminal (handleErrorResponse cfg status body endpoint) = false) ∧
      (status = 408 →
        handleErrorResponse cfg status body endpoint
          = .timeoutError endpoint cfg.Timeout 1 ∧
        isTerminal (handleErrorResponse cfg status body endpoint) = false) ∧
      (400 ≤ status → status < 500 → status ≠ 401 → status ≠ 403 →
        status ≠ 408 → status ≠ 429 →
        (∃ m b, handleErrorResponse cfg status body endpoint
          = .apiError status m endpoint b) ∧
        isTerminal (handleErrorResponse cfg status body endpoint) = true) ∧
      (500 ≤ status →
        (∃ m b, handleErrorResponse cfg status body endpoint
          = .apiError status m endpoint b) ∧
        isTerminal (handleErrorResponse cfg status body endpoint) = false) ∧
      (∀ r, isTerminal (.apiError 200 "Failed to parse API response" endpoint r)
        = false)) ∧
    ((executeWithRetry cfg req (fun _ => .response 429 b4) (fun _ => false)).2
        = (cfg.MaxRetries + 1).toNat ∧
      (executeWithRetry cfg req (fun _ => .response 408 b4) (fun _ => false)).2
        = (cfg.MaxRetries + 1).toNat ∧
      (executeWithRetry cfg req (fun _ => .doError "conn") (fun _ => false)).2
        = (cfg.MaxRetries + 1).toNat) ∧
    (∀ script cancelled,
      (executeWithRetry cfg req script cancelled).2 ≤ (cfg.MaxRetries + 1).toNat) := by
  have hexh : ∀ att : AttemptOutcome,
      (∃ e, (executeOnce cfg req att).1 = .error e ∧ isTerminal e = false ∧
        (executeOnce cfg req att).2 = true) →
      (executeWithRetry cfg req (fun _ => att) (fun _ => false)).2
        = (cfg.MaxRetries + 1).toNat := by
    intro att hatt
    unfold executeWithRetry
    exact retryLoop_exhausts_on_nonterminal cfg req (fun _ => att) (fun _ => false)
      (fun n => rfl) (fun n => hatt) _ 0 none
  refine ⟨?_, ⟨?_, ?_⟩, ?_, ⟨?_, ?_, ?_⟩, ?_⟩
  · unfold executeWithRetry
    have h2 : (cfg.MaxRetries + 1).toNat = (cfg.MaxRetries - 1).toNat + 2 := by omega
    rw [h2]
    simp [retryLoop, executeOnce, handleErrorResponse, isTerminal,
      SdkError.isClientErrorCode, hm, hc]
  · unfold executeWithRetry
    have h2 : (cfg.MaxRetries + 1).toNat = cfg.MaxRetries.toNat + 1 := by omega
    rw [h2]
    simp [retryLoop, executeOnce, isTerminal, SdkError.isClientErrorCode, hm, hc]
    unfold handleErrorResponse
    simp
  · unfold handleErrorResponse
    simp
  · intro status body endpoint
    refine ⟨?_, ?_, ?_, ?_, ?_, ?_⟩
    · rintro (rfl | rfl) <;>
        simp [handleErrorResponse, isTerminal]
    · rintro rfl
      simp [handleErrorResponse, isTerminal]
    · rintro rfl
      simp [handleErrorResponse, isTerminal]
    · intro hge hlt h401 h403 h408 h429
      unfold handleErrorResponse
      rw [if_neg h401, if_neg h403, if_neg h429, if_neg h408]
      constructor
      · by_cases h400 : status = 400
        · subst h400; simp
        · rw [if_neg h400]
          by_cases h404 : status = 404
          · subst h404; simp
          · rw [if_neg h404]
            exact ⟨_, _, rfl⟩
      · by_cases h400 : status = 400
        · subst h400
          simp [isTerminal, SdkError.isClientErrorCode]
        · rw [if_neg h400]
          by_cases h404 : status = 404
          · subst h404
            simp [isTerminal, SdkError.isClientErrorCode]
          · rw [if_neg h404]
            simp [isTerminal, SdkError.isClientErrorCode]
            omega
    · intro hge
      unfold handleErrorResponse
      rw [if_neg (by omega), if_neg (by omega), if_neg (by omega),
        if_neg (by omega), if_neg (by omega), if_neg (by omega)]
      refine ⟨⟨_, _, rfl⟩, ?_⟩
      simp [isTerminal, SdkError.isClientErrorCode]
      omega
    · intro r
      simp [isTerminal, SdkError.isClientErrorCode]
  · refine hexh _ ⟨handleErrorResponse cfg 429 b4 req.endpoint, ?_, ?_, ?_⟩
    · simp [executeOnce, hm, hc]
    · simp [handleErrorResponse, isTerminal]
    · simp [executeOnce, hm, hc]
  · refine hexh _ ⟨handleErrorResponse cfg 408 b4 req.endpoint, ?_, ?_, ?_⟩
    · simp [executeOnce, hm, hc]
    · simp [handleErrorResponse, isTerminal]
    · simp [executeOnce, hm, hc]
  · refine hexh _ ⟨.networkError req.endpoint "conn", ?_, ?_, ?_⟩
    · simp [executeOnce, hm, hc]
    · rfl
    · simp [executeOnce, hm, hc]
  · intro script cancelled
    unfold executeWithRetry
    exact retryLoop_calls_le cfg req script cancelled _ 0 none

/-- Witness for C3: under the default configuration (maxRetries = 3), the
500-then-200 script succeeds with exactly 2 transport calls and the
400 script stops after exactly 1 transport call with the classified error. -/
theorem C3_retry_classification_witness :
    executeWithRetry DefaultConfig
        { method := "POST", endpoint := "/pin", marshalFails := false,
          createFails := false }
        (fun n => if n = 0 then .response 500 (.malformed "boom")
                  else .response 200 (.parsed true [("ok", "true")] none "" "r"))
        (fun _ => false)
      = ((some [("ok", "true")], none), 2) ∧
    executeWithRetry DefaultConfig
        { method := "POST", endpoint := "/pin", marshalFails := false,
          createFails := false }
        (fun _ => .response 400 (.malformed "bad")) (fun _ => false)
      = ((none,
          some (handleErrorResponse DefaultConfig 400 (.malformed "bad") "/pin")), 1) := by
  have h := C3_retry_classification DefaultConfig
      { method := "POST", endpoint := "/pin", marshalFails := false,
        createFails := false }
      (.malformed "boom") (.malformed "bad") [("ok", "true")] "r"
      (by decide) rfl rfl
  exact ⟨h.1, h.2.1.1⟩

/-- Every error handleErrorResponse produces is a taxonomy kind. -/
theorem handleErrorResponse_isTaxonomy (cfg : Config) (statusCode : Int)
    (body : RespBody) (endpoint : String) :
    (handleErrorResponse cfg statusCode body endpoint).isTaxonomy = true := by
  unfold handleErrorResponse
  repeat' split
  all_goals rfl

/-- Every error executeOnce produces on a marshalable, creatable request
whose attempt is not a body-read failure is a taxonomy kind. -/
theorem executeOnce_isTaxonomy (cfg : Config) (req : ApiRequest)
    (att : AttemptOutcome) (hm : req.marshalFails = false)
    (hc : req.createFails = false) (hread : ∀ s, att ≠ .readFail s)
    (e : SdkError) (he : (executeOnce cfg req att).1 = .error e) :
    e.isTaxonomy = true := by
  unfold executeOnce at he
  rw [hm, hc] at he
  simp only [Bool.false_eq_true, if_false] at he
  cases att with
  | doError cause =>
    simp only at he
    injection he with he
    rw [← he]
    rfl
  | readFail s => exact absurd rfl (hread s)
  | response statusCode body =>
    simp only at he
    split at he
    · injection he with he
      rw [← he]
      exact handleErrorResponse_isTaxonomy cfg statusCode body req.endpoint
    · split at he
      · injection he with he
        rw [← he]
        rfl
      · split at he
        · exact Except.noConfusion he
        · injection he with he
          rw [← he]
          rfl

/-- Under the same conditions the whole retry loop only surfaces taxonomy
errors. -/
theorem retryLoop_isTaxonomy (cfg : Config) (req : ApiRequest)
    (script : Nat → AttemptOutcome) (cancelled : Nat → Bool)
    (hm : req.marshalFails = false) (hc : req.createFails = false)
    (hread : ∀ n s, script n ≠ .readFail s) (hcan : ∀ n, cancelled n = false) :
    ∀ fuel attempt lastErr,
      (∀ e, lastErr = some e → e.isTaxonomy = true) →
      ∀ e, (retryLoop cfg req script cancelled attempt fuel lastErr).1.2 = some e →
        e.isTaxonomy = true := by
  intro fuel
  induction fuel with
  | zero =>
    intro attempt lastErr hlast e he
    exact hlast e he
  | succ fuel ih =>
    intro attempt lastErr hlast e he
    rw [retryLoop] at he
    rw [hcan attempt] at he
    simp only [Bool.false_eq_true, if_false] at he
    split at he
    · rename_i data heq
      injection he
    · rename_i err heq
      have htax := executeOnce_isTaxonomy cfg req (script attempt) hm hc
        (hread attempt) err heq
      split at he
      · injection he with he
        exact he ▸ htax
      · split at he
        · injection he with he
          exact he ▸ htax
        · exact ih (attempt + 1) (some err)
            (fun e' he' => by
              injection he' with he'
              exact he' ▸ htax)
            e he

/-- C5 (amended): every failure arising from the transport itself
(client.Do), from a non-success HTTP status, or from a malformed or
unsuccessful payload is classified into the taxonomy before it reaches the
caller; but request-body marshalling failures, request-construction
failures, response-body read failures and context cancellation are returned
unclassified as raw errors (see the counterexample). -/
theorem C5_executor_taxonomy (cfg : Config) (req : ApiRequest)
    (script : Nat → AttemptOutcome) (cancelled : Nat → Bool)
    (hm : req.marshalFails = false) (hc : req.createFails = false)
    (hread : ∀ n s, script n ≠ .readFail s) (hcan : ∀ n, cancelled n = false)
    (e : SdkError)
    (he : (executeWithRetry cfg req script cancelled).1.2 = some e) :
    e.isTaxonomy = true := by
  unfold executeWithRetry at he
  exact retryLoop_isTaxonomy cfg req script cancelled hm hc hread hcan
    _ 0 none (fun e' he' => Option.noConfusion he') e he

/-- Witness for C5 (amended): a run whose only failure is a transport-level
500 surfaces a taxonomy error. -/
theorem C5_executor_taxonomy_witness :
    SdkError.isTaxonomy
      (SdkError.apiError 500 "boom" "/pin" "boom") = true := by
  have h := C5_executor_taxonomy DefaultConfig
      { method := "POST", endpoint := "/pin", marshalFails := false,
        createFails := false }
      (fun _ => .response 500 (.malformed "boom")) (fun _ => false)
      rfl rfl (fun n s => by simp) (fun n => rfl)
      (SdkError.apiError 500 "boom" "/pin" "boom") (by decide)
  exact h

/-- C5 counterexample: with the default configuration, a transport whose
response body cannot be read makes the executor return the raw
fmt.Errorf-wrapped read error to its caller — an error outside the seven
taxonomy kinds, refuting the claim that callers never receive a raw
transport or I/O error. -/
theorem C5_executor_taxonomy_counterexample :
    (executeWithRetry DefaultConfig
        { method := "POST", endpoint := "/pin", marshalFails := false,
          createFails := false }
        (fun _ => .readFail 200) (fun _ => false)).1.2
      = some (.rawError "failed to read response body") ∧
    SdkError.isTaxonomy (.rawError "failed to read response body") = false := by
  constructor
  · decide
  · rfl

end KraSdk
